import Mathlib

/-!
Verification of the quote reconciliation engine of `longclaw/shipping/models.py`.

The Python source is shallowly embedded:
* machine-independent values (strings, decimals, timestamps) become `String`,
  `ℚ` and `Int`;
* the Django ORM table of quotes becomes an explicit `Store` (a list of rows
  plus a fresh-id counter) threaded through each operation;
* `timezone.now()` becomes an explicit `now : Int` parameter;
* exceptions become `Except PyErr`;
* external collaborators that are not part of the repository (the rate pricer
  `get_shipping_cost` from `longclaw.shipping.utils`, and the set of
  `ShippingRate` names configured for a country) are passed in as parameters,
  following the collaborator contracts of the specification.

The source file uses the Python 2 form `except InvalidShippingRate,
InvalidShippingCountry:` (under Python 3 this line is a syntax error).  We
embed the Python 2 semantics of that statement: it catches only
`InvalidShippingRate`, binding the exception object to the local name
`InvalidShippingCountry`; an actual `InvalidShippingCountry` propagates.
-/

namespace Longclaw

/-! ## 32-bit arithmetic and SHA-1 (`hashlib.sha1`) -/

/-- Truncate to a 32-bit word. -/
def w32 (n : Nat) : Nat := n % 4294967296

/-- Rotate a 32-bit word left by `k` bits. -/
def rotl (k n : Nat) : Nat := w32 (n * 2 ^ k + n / 2 ^ (32 - k))

/-- Bitwise complement of a 32-bit word. -/
def compl32 (n : Nat) : Nat := 4294967295 - n

/-- The `k` big-endian bytes of `n`. -/
def bytesBE (k n : Nat) : List Nat :=
  (List.range k).map (fun i => n / 2 ^ (8 * (k - 1 - i)) % 256)

/-- SHA-1 padding: `0x80`, zeros, then the bit length as 8 big-endian bytes,
to a multiple of 64 bytes. -/
def sha1pad (msg : List Nat) : List Nat :=
  msg ++ 128 :: List.replicate ((119 - msg.length % 64) % 64) 0
      ++ bytesBE 8 (8 * msg.length)

/-- Word `i` (big-endian) of a 64-byte chunk. -/
def wordOf (c : List Nat) (i : Nat) : Nat :=
  c.getD (4 * i) 0 * 16777216 + c.getD (4 * i + 1) 0 * 65536 +
    c.getD (4 * i + 2) 0 * 256 + c.getD (4 * i + 3) 0

/-- The 80-word message schedule of a chunk. -/
def sched (c : List Nat) : List Nat :=
  (List.range 80).foldl
    (fun ws i =>
      ws ++ [if i < 16 then wordOf c i
             else rotl 1 (Nat.xor (ws.getD (i - 3) 0)
               (Nat.xor (ws.getD (i - 8) 0)
                 (Nat.xor (ws.getD (i - 14) 0) (ws.getD (i - 16) 0))))])
    []

/-- One SHA-1 round. -/
def sha1round (ws : List Nat) (st : Nat × Nat × Nat × Nat × Nat) (i : Nat) :
    Nat × Nat × Nat × Nat × Nat :=
  let (a, b, c, d, e) := st
  let f :=
    if i < 20 then Nat.lor (Nat.land b c) (Nat.land (compl32 b) d)
    else if i < 40 then Nat.xor b (Nat.xor c d)
    else if i < 60 then
      Nat.lor (Nat.land b c) (Nat.lor (Nat.land b d) (Nat.land c d))
    else Nat.xor b (Nat.xor c d)
  let k :=
    if i < 20 then 1518500249
    else if i < 40 then 1859775393
    else if i < 60 then 2400959708
    else 3395469782
  let temp := w32 (rotl 5 a + f + e + k + ws.getD i 0)
  (temp, a, rotl 30 b, c, d)

/-- Process one 64-byte chunk. -/
def sha1chunk (h : Nat × Nat × Nat × Nat × Nat) (c : List Nat) :
    Nat × Nat × Nat × Nat × Nat :=
  let (h0, h1, h2, h3, h4) := h
  let (a, b, b2, d, e) := (List.range 80).foldl (sha1round (sched c)) h
  (w32 (h0 + a), w32 (h1 + b), w32 (h2 + b2), w32 (h3 + d), w32 (h4 + e))

/-- Lower-case hex digit. -/
def hexDigit (n : Nat) : Char :=
  if n < 10 then Char.ofNat (48 + n) else Char.ofNat (87 + n)

/-- Render `n` as `k` lower-case hex digits. -/
def hexN (k n : Nat) : String :=
  String.mk ((List.range k).map (fun i => hexDigit (n / 16 ^ (k - 1 - i) % 16)))

/-- The digest `hashlib.sha1(bytes).hexdigest()`. -/
def sha1hex (msg : List Nat) : String :=
  let padded := sha1pad msg
  let cs := (List.range (padded.length / 64)).map
    (fun i => (padded.drop (64 * i)).take 64)
  let (h0, h1, h2, h3, h4) :=
    cs.foldl sha1chunk (1732584193, 4023233417, 2562383102, 271733878, 3285377520)
  hexN 8 h0 ++ hexN 8 h1 ++ hexN 8 h2 ++ hexN 8 h3 ++ hexN 8 h4

/-! ## Byte encoding and JSON canonicalization (`force_bytes`, `json.dumps`) -/

/-- UTF-8 encoding of one code point (`force_bytes` uses UTF-8). -/
def utf8bytes (c : Nat) : List Nat :=
  if c < 128 then [c]
  else if c < 2048 then [192 + c / 64, 128 + c % 64]
  else if c < 65536 then [224 + c / 4096, 128 + c / 64 % 64, 128 + c % 64]
  else [240 + c / 262144, 128 + c / 4096 % 64, 128 + c / 64 % 64, 128 + c % 64]

/-- UTF-8 bytes of a string. -/
def strBytes (s : String) : List Nat :=
  s.data.foldr (fun c acc => utf8bytes c.toNat ++ acc) []

/-- JSON escape of one character, as `json.dumps` (default `ensure_ascii=True`)
produces it. -/
def jsonEscapeChar (c : Nat) : String :=
  if c = 34 then "\\\""
  else if c = 92 then "\\\\"
  else if c = 10 then "\\n"
  else if c = 13 then "\\r"
  else if c = 9 then "\\t"
  else if c = 8 then "\\b"
  else if c = 12 then "\\f"
  else if c < 32 then "\\u" ++ hexN 4 c
  else if c < 127 then String.mk [Char.ofNat c]
  else if c < 65536 then "\\u" ++ hexN 4 c
  else
    "\\u" ++ hexN 4 (55296 + (c - 65536) / 1024) ++ "\\u" ++
      hexN 4 (56320 + (c - 65536) % 1024)

/-- A JSON string literal. -/
def jsonStr (s : String) : String :=
  "\"" ++ String.join (s.data.map (fun c => jsonEscapeChar c.toNat)) ++ "\""

/-- JSON for `site.pk if site else site`: a number or `null`. -/
def jsonSite : Option Nat → String
  | none => "null"
  | some n => toString n

/-! ## The fingerprint (`DefaultShippingQuote.generate_key`) -/

/-- The destination address as the core reads it: only
`destination.country.pk` (the ISO alpha-2 primary key of the country row) is
ever accessed. -/
structure Address where
  country : String
deriving DecidableEq, Repr

/-- The string `json.dumps(data, sort_keys=True, indent=4, separators=(',', ': '))` for
`data = {'destination_country': destination.country.pk, 'site': site.pk if
site else site}`.  With `sort_keys=True` the key `"destination_country"`
precedes `"site"`; with `indent=4` each item sits on its own line indented by
four spaces and the item separator is a comma followed by the newline and
indent. -/
def keyDatastring (destination : Address) (site : Option Nat) : String :=
  "\x7b\n    \"destination_country\": " ++ jsonStr destination.country ++
    ",\n    \"site\": " ++ jsonSite site ++ "\n\x7d"

/-- The fingerprint `DefaultShippingQuote.generate_key(destination, basket_id, site)`:
serialize `{'destination_country': ..., 'site': ...}` canonically and return
the SHA-1 hex digest.  `basket_id` is accepted but never read, exactly as in
the source. -/
def generate_key (destination : Address) (basket_id : String)
    (site : Option Nat) : String :=
  sha1hex (strBytes (keyDatastring destination site))

/-! ## The data model (`AbstractShippingQuote` and the quote table)

`uuid.uuid4()` primary keys are modelled by allocation from a fresh-id
counter (the property the code relies on is freshness); `DateTimeField`
values are `Int` timestamps and `DecimalField` values are `ℚ`. -/

/-- Failure signals of the external pricer
(`longclaw.shipping.utils.InvalidShippingRate` / `InvalidShippingCountry`). -/
inductive PricerErr where
  | invalidShippingRate
  | invalidShippingCountry
deriving DecidableEq, Repr

/-- Python-level failures of the embedded operations. -/
inductive PyErr where
  /-- an exception escaping `create_shipping_quotes` uncaught -/
  | uncaught (e : PricerErr)
  /-- subscripting a dict with a missing key -/
  | keyError (k : String)
  /-- assigning an attribute on a tuple -/
  | attributeError
  /-- comparing a datetime with `None` -/
  | typeError
  /-- violation of the `unique_together` constraint on save -/
  | integrityError
  /-- Django `.get()` matched several rows -/
  | multipleObjectsReturned
  /-- selection referenced a quote not in the (basket, fingerprint) group -/
  | notFound
deriving DecidableEq, Repr

/-- A row of the quote table: the fields of `AbstractShippingQuote`. -/
structure Quote where
  id : Nat
  basket_id : String
  updated_at : Int
  expires_at : Option Int
  amount : ℚ
  carrier : String
  service : String
  description : String
  key : String
  /-- tri-state `NullBooleanField`: `none` is the unset (SQL `NULL`) state -/
  is_selected : Option Bool
  is_valid : Bool
deriving DecidableEq, Repr

/-- The quote table plus a counter supplying fresh primary keys. -/
structure Store where
  rows : List Quote
  nextId : Nat
deriving DecidableEq, Repr

/-- The default expiry window: `timedelta(days=30)` in seconds. -/
def defaultWindow : Int := 2592000

/-- Two rows are compatible with the `unique_together
(('basket_id', 'is_selected', 'key'),)` constraint: SQL `NULL` never
conflicts, otherwise the triples must differ. -/
def noConflict (q r : Quote) : Bool :=
  q.is_selected == none || r.is_selected == none ||
    !(q.basket_id == r.basket_id && q.is_selected == r.is_selected &&
      q.key == r.key)

/-- The whole table satisfies the `unique_together` constraint. -/
def uniqueTogetherOK : List Quote → Bool
  | [] => true
  | q :: rest => rest.all (noConflict q) && uniqueTogetherOK rest

/-! ## The pricer collaborator and Python dicts -/

/-- A Python dict value occurring in this code: a decimal or a string. -/
inductive Val where
  | dec (q : ℚ)
  | str (s : String)
deriving DecidableEq, Repr

/-- Dict subscript: `d[k]`, raising `KeyError` on a miss. -/
def dictGet (d : List (String × Val)) (k : String) : Except PyErr Val :=
  match d.find? (fun p => p.1 == k) with
  | some p => .ok p.2
  | none => .error (.keyError k)

/-- The numeric content of a dict value (at its one use the value under
`"rate"` is always numeric when present). -/
def decVal : Val → ℚ
  | .dec q => q
  | .str _ => 0

/-- The string content of a dict value. -/
def strVal : Val → String
  | .str s => s
  | .dec _ => ""

/-- A successful pricer result. -/
structure Rate where
  rate : ℚ
  carrier : String
  description : String
deriving DecidableEq, Repr

/-- Modelled from the spec: the external collaborator `get_shipping_cost`
(`longclaw.shipping.utils`, the `RatePricer` of §6, with the site settings
already applied) returns, per service name, a mapping holding the price and
the display strings or fails with `InvalidShippingRate` (rate not found) /
`InvalidShippingCountry` (country not served).  It is passed to the
reconciler as a parameter `price`; on success the mapping carries the price
under the key `"rate"` and the display strings under `"carrier"` and
`"description"`, the keys the repository's success path reads. -/
def priceDict (r : Rate) : List (String × Val) :=
  [("rate", .dec r.rate), ("carrier", .str r.carrier),
   ("description", .str r.description)]

/-! ## `cls.objects.update_or_create(defaults=lookups, **details)`

At the call site of line 196 the keyword arguments — Django's *match*
fields — are the price `details` (`amount`, `carrier`, `description`,
`is_valid`) and the `defaults` — the fields *written* on a hit — are the
`lookups` dict (`basket_id`, `service`, `key`).  The embedding reproduces
Django's semantics at exactly this call shape: `get` by the match fields;
on a hit overwrite the defaults and save; on a miss create a row from both
dicts (untouched fields take their model defaults: a fresh `id`,
`expires_at = now + 30 days`, `is_selected` unset); `updated_at` is
`auto_now`.  A save violating `unique_together` raises `IntegrityError`
and leaves the table unchanged. -/

/-- The field-writes of the `defaults=lookups` dict of line 170. -/
structure Lookups where
  basket_id : String
  service : String
  key : String
deriving DecidableEq, Repr

/-- The field values of the `details` dict of line 190. -/
structure Details where
  amount : ℚ
  carrier : String
  description : String
  is_valid : Bool
deriving DecidableEq, Repr

/-- A row matches the `**details` keyword filter. -/
def detailsMatch (d : Details) (q : Quote) : Bool :=
  q.amount == d.amount && q.carrier == d.carrier &&
    q.description == d.description && q.is_valid == d.is_valid

/-- Django's `update_or_create(defaults=lookups, **details)` against the table,
returning the `(object, created)` pair and the new table. -/
def update_or_create (now : Int) (st : Store) (defaults : Lookups)
    (details : Details) : Except PyErr (Quote × Bool × Store) :=
  match st.rows.filter (detailsMatch details) with
  | [] =>
    let q : Quote :=
      { id := st.nextId, basket_id := defaults.basket_id, updated_at := now,
        expires_at := some (now + defaultWindow), amount := details.amount,
        carrier := details.carrier, service := defaults.service,
        description := details.description, key := defaults.key,
        is_selected := none, is_valid := details.is_valid }
    let rows := st.rows ++ [q]
    if uniqueTogetherOK rows then .ok (q, true, ⟨rows, st.nextId + 1⟩)
    else .error .integrityError
  | [q] =>
    let q' := { q with basket_id := defaults.basket_id,
                       service := defaults.service, key := defaults.key,
                       updated_at := now }
    let rows := st.rows.map (fun r => if r.id == q.id then q' else r)
    if uniqueTogetherOK rows then .ok (q', false, ⟨rows, st.nextId⟩)
    else .error .integrityError
  | _ => .error .multipleObjectsReturned

/-! ## `DefaultShippingQuote.create_shipping_quotes` -/

/-- One iteration of the `for name in shipping_rate_names` loop: price the
service (the Python 2 clause `except InvalidShippingRate,
InvalidShippingCountry:` catches only `InvalidShippingRate`, so
`InvalidShippingCountry` propagates), build `details` by subscripting the
resulting dict, and `update_or_create`. -/
def serviceUpsert (price : String → Except PricerErr Rate) (now : Int)
    (basket_id key name : String) (st : Store) :
    Except PyErr (Quote × Bool × Store) := do
  let priced : Except PyErr (List (String × Val) × Bool) :=
    match price name with
    | .ok r => .ok (priceDict r, true)
    | .error .invalidShippingRate =>
      .ok ([("amount", .dec 0), ("carrier", .str "INVALID"),
            ("description", .str "INVALID")], false)
    | .error .invalidShippingCountry =>
      .error (.uncaught .invalidShippingCountry)
  let (shipping_rate, valid) ← priced
  let amount ← dictGet shipping_rate "rate"
  let carrier ← dictGet shipping_rate "carrier"
  let description ← dictGet shipping_rate "description"
  update_or_create now st ⟨basket_id, name, key⟩
    ⟨decVal amount, strVal carrier, strVal description, valid⟩

/-- The loop of lines 169–197, threading the table and accumulating the
`(object, created)` pairs appended to `quotes`.  An exception leaves the
writes of the earlier iterations in place (autocommit) and propagates. -/
def quotesLoop (price : String → Except PricerErr Rate) (now : Int)
    (basket_id key : String) :
    List String → Store → List (Quote × Bool) →
    Except PyErr (List (Quote × Bool)) × Store
  | [], st, acc => (.ok acc, st)
  | name :: rest, st, acc =>
    match serviceUpsert price now basket_id key name st with
    | .ok (q, created, st') =>
      quotesLoop price now basket_id key rest st' (acc ++ [(q, created)])
    | .error e => (.error e, st)

/-- The pass `DefaultShippingQuote.create_shipping_quotes(destination, basket_id,
site)`.  The two external reads — the applicable `ShippingRate` names for
`destination.country.pk` and the pricer with the site settings applied —
enter as the parameters `shipping_rate_names` and `price`.  After the loop,
when exactly one pair was accumulated, line 201 assigns
`instance.is_selected = True` on `quotes[0]`, which is the `(object,
created)` *tuple* returned by `update_or_create`: attribute assignment on a
tuple raises `AttributeError` before any save. -/
def create_shipping_quotes (shipping_rate_names : List String)
    (price : String → Except PricerErr Rate) (destination : Address)
    (basket_id : String) (site : Option Nat) (now : Int) (st : Store) :
    Except PyErr (List (Quote × Bool)) × Store :=
  let key := generate_key destination basket_id site
  match quotesLoop price now basket_id key shipping_rate_names st [] with
  | (.error e, st') => (.error e, st')
  | (.ok quotes, st') =>
    if quotes.length == 1 then (.error .attributeError, st')
    else (.ok quotes, st')

/-! ## `AbstractShippingQuote.can_book` -/

/-- The check `can_book`: `self.is_valid and timezone.now() < self.expires_at and
self.key == self.generate_key(destination, basket_id, site)`, with Python's
short-circuit `and`; comparing a datetime with `None` raises `TypeError`. -/
def can_book (q : Quote) (destination : Address) (basket_id : String)
    (site : Option Nat) (now : Int) : Except PyErr Bool :=
  if q.is_valid = false then .ok false
  else match q.expires_at with
    | none => .error .typeError
    | some e =>
      if now < e then .ok (q.key == generate_key destination basket_id site)
      else .ok false

/-- The check `can_book` with the ambient database threaded through, in the same shape
as the state-passing operations: its body reads only the fields of `self`
and calls the pure `generate_key` — the source performs no query and no
save, so the table passes through untouched. -/
def can_book_run (st : Store) (q : Quote) (destination : Address)
    (basket_id : String) (site : Option Nat) (now : Int) :
    Except PyErr Bool × Store :=
  (if q.is_valid = false then .ok false
   else match q.expires_at with
     | none => .error .typeError
     | some e =>
       if now < e then .ok (q.key == generate_key destination basket_id site)
       else .ok false,
   st)

/-! ## Selection -/

/-- Membership of a row in the `(basket_id, fingerprint)` group. -/
def inQuoteGroup (basket_id key : String) (q : Quote) : Bool :=
  q.basket_id == basket_id && q.key == key

/-- Modelled from the spec: the per-row effect of `select` within the
`(basket_id, fingerprint)` group — the target becomes selected, a currently
selected sibling is cleared, rows outside the group are untouched. -/
def selUpdate (basket_id key : String) (quote_id : Nat) (r : Quote) : Quote :=
  if inQuoteGroup basket_id key r then
    if r.id == quote_id then { r with is_selected := some true }
    else if r.is_selected == some true then { r with is_selected := some false }
    else r
  else r

/-- Modelled from the spec: `select_shipping_quote` is only declared in the
source (`AbstractShippingQuote.select_shipping_quote` raises
`NotImplementedError` and `DefaultShippingQuote` does not override it), so
the SelectionManager `select` operation of §4.3 is embedded from the spec's
words: set `is_selected = true` on the target quote, clear `is_selected` on
any other quote sharing `(basket_id, fingerprint)` that is currently
selected, and fail with `NotFound` when `quote_id` does not belong to
`(basket_id, fingerprint)`. -/
def select_shipping_quote (st : Store) (basket_id key : String)
    (quote_id : Nat) : Except PyErr (Quote × Store) :=
  match st.rows.find? (fun q => inQuoteGroup basket_id key q && q.id == quote_id) with
  | none => .error .notFound
  | some q =>
    .ok ({ q with is_selected := some true },
         ⟨st.rows.map (selUpdate basket_id key quote_id), st.nextId⟩)

/-! ## Reachable states -/

/-- The store states reachable through the core's operations: from the empty
table, by reconciliation passes (under any collaborator behaviour) and by
successful selections. -/
inductive Reachable : Store → Prop where
  | init : Reachable ⟨[], 0⟩
  | reconcile (names : List String) (price : String → Except PricerErr Rate)
      (destination : Address) (basket_id : String) (site : Option Nat)
      (now : Int) (st : Store) : Reachable st →
      Reachable (create_shipping_quotes names price destination basket_id
        site now st).2
  | select (basket_id key : String) (quote_id : Nat) (q : Quote)
      (st st' : Store) : Reachable st →
      select_shipping_quote st basket_id key quote_id = .ok (q, st') →
      Reachable st'

/-! ## Invariant predicates -/

/-- At most one row with `is_selected = true` per `(basket_id, key)` group:
any two rows of the table sharing basket and fingerprint that are both
selected coincide. -/
def selUnique (st : Store) : Prop :=
  ∀ q1 ∈ st.rows, ∀ q2 ∈ st.rows, q1.basket_id = q2.basket_id →
    q1.key = q2.key → q1.is_selected = some true → q2.is_selected = some true →
    q1 = q2

/-- Primary-key integrity of the table: ids are pairwise distinct and below
the fresh-id counter. -/
def idsWf (st : Store) : Prop :=
  (st.rows.map Quote.id).Nodup ∧ ∀ q ∈ st.rows, q.id < st.nextId

/-- Well-formedness maintained by the core: primary-key integrity and the
per-`(basket_id, key)` selection uniqueness. -/
def storeWf (st : Store) : Prop := idsWf st ∧ selUnique st

/-! ## Concrete fixtures used by the witnesses and counterexamples -/

/-- The empty initial table. -/
def emptyStore : Store := ⟨[], 0⟩

/-- Destination with country `US`. -/
def destUS : Address := ⟨"US"⟩

/-- Destination with country `CA`. -/
def destCA : Address := ⟨"CA"⟩

/-- Concrete pricer: `standard` costs 5, every other service 15, same
carrier `UPS`. -/
def priceOk : String → Except PricerErr Rate :=
  fun name => if name == "standard" then .ok ⟨5, "UPS", "Ground"⟩
              else .ok ⟨15, "UPS", "Air"⟩

/-- Concrete pricer: `standard` costs 5, every other service has no
configured rate (`InvalidShippingRate`, the spec's RateNotFound). -/
def priceRateFails : String → Except PricerErr Rate :=
  fun name => if name == "standard" then .ok ⟨5, "UPS", "Ground"⟩
              else .error .invalidShippingRate

/-- Concrete pricer: `standard` costs 5, every other service is not served
for the country (`InvalidShippingCountry`, the spec's CountryNotServed). -/
def priceCountryFails : String → Except PricerErr Rate :=
  fun name => if name == "standard" then .ok ⟨5, "UPS", "Ground"⟩
              else .error .invalidShippingCountry

/-- Concrete pricer pricing every service identically. -/
def priceFlat : String → Except PricerErr Rate := fun _ => .ok ⟨5, "UPS", "Ground"⟩

/-- Concrete pricer with `DHL` rates, distinct from those of `priceOk`. -/
def priceCA : String → Except PricerErr Rate :=
  fun name => if name == "standard" then .ok ⟨7, "DHL", "G2"⟩
              else .ok ⟨17, "DHL", "A2"⟩

/-- The store component after a successful selection (unchanged store on
failure). -/
def stepSel (st : Store) (basket_id key : String) (quote_id : Nat) : Store :=
  match select_shipping_quote st basket_id key quote_id with
  | .ok (_, st') => st'
  | .error _ => st

/-- The quote returned by a successful selection. -/
def selQuote (st : Store) (basket_id key : String) (quote_id : Nat) : Quote :=
  match select_shipping_quote st basket_id key quote_id with
  | .ok (q, _) => q
  | .error _ =>
    { id := 0, basket_id := "", updated_at := 0, expires_at := none,
      amount := 0, carrier := "", service := "", description := "", key := "",
      is_selected := none, is_valid := false }

/-- Fingerprint of a `US` basket with no site. -/
def kUS : String := generate_key destUS "b" none

/-- Fingerprint of a `CA` basket with no site. -/
def kCA : String := generate_key destCA "b" none

/-- Table after reconciling basket `b` for `US` (rows 0 and 1, key `kUS`). -/
def stA : Store :=
  (create_shipping_quotes ["standard", "express"] priceOk destUS "b" none
    1000 emptyStore).2

/-- Table after additionally reconciling basket `b` for `CA` (rows 2 and 3,
key `kCA`). -/
def stB : Store :=
  (create_shipping_quotes ["standard", "express"] priceCA destCA "b" none
    2000 stA).2

/-- Table after selecting row 0 within the `kUS` group. -/
def stC : Store := stepSel stB "b" kUS 0

/-- Table after additionally selecting row 2 within the `kCA` group. -/
def stD : Store := stepSel stC "b" kCA 2

/-- The quote returned by the first selection. -/
def qSel1 : Quote := selQuote stB "b" kUS 0

/-- The quote returned by the second selection. -/
def qSel2 : Quote := selQuote stC "b" kCA 2

/-- A previously selected quote in group `("b", "k")`. -/
def selA : Quote :=
  { id := 0, basket_id := "b", updated_at := 0, expires_at := some 100,
    amount := 5, carrier := "UPS", service := "standard", description := "d",
    key := "k", is_selected := some true, is_valid := true }

/-- An unselected quote in the same group. -/
def selB : Quote :=
  { id := 1, basket_id := "b", updated_at := 0, expires_at := some 100,
    amount := 15, carrier := "UPS", service := "express", description := "d",
    key := "k", is_selected := none, is_valid := true }

/-- A two-row table with `selA` selected. -/
def selStore : Store := ⟨[selA, selB], 2⟩

/-- A valid, fingerprint-matching quote explicitly configured with a null
`expires_at`. -/
def qNullExpiry : Quote :=
  { id := 7, basket_id := "b1", updated_at := 0, expires_at := none,
    amount := 5, carrier := "UPS", service := "standard",
    description := "Ground", key := generate_key destUS "b1" none,
    is_selected := none, is_valid := true }

set_option maxRecDepth 1000000

/-! ## Theorems -/

/-- SHA-1 sanity check against the published test vector. -/
theorem sha1hex_abc :
    sha1hex (strBytes "abc") = "a9993e364706816aba3e25717850c26c9cd0d89d" := by
  decide

/-- Claim C3 — `generate_key` is pure and deterministic: its output depends
only on the destination country and the site; any two calls with equal
country and equal site return the identical string (the function has no
other inputs — no process, time, or iteration-order dependence exists in
the embedding, and the serialized payload fixes the key order by sorting). -/
theorem C3_generate_key_deterministic (d1 d2 : Address) (b1 b2 : String)
    (s1 s2 : Option Nat) (hc : d1.country = d2.country) (hs : s1 = s2) :
    generate_key d1 b1 s1 = generate_key d2 b2 s2 := by
  cases d1 with
  | mk c1 =>
    cases d2 with
    | mk c2 =>
      have h : c1 = c2 := hc
      subst h
      subst hs
      rfl

/-- Witness for C3 at a concrete destination, site and two baskets. -/
theorem C3_generate_key_deterministic_witness :
    (Address.mk "US").country = (Address.mk "US").country ∧
      (some 3 : Option Nat) = some 3 ∧
      generate_key ⟨"US"⟩ "basket-a" (some 3) =
        generate_key ⟨"US"⟩ "basket-b" (some 3) :=
  ⟨rfl, rfl, C3_generate_key_deterministic ⟨"US"⟩ ⟨"US"⟩ "basket-a" "basket-b"
    (some 3) (some 3) rfl rfl⟩

/-- Claim C4 — the fingerprint does not depend on `basket_id`: for every
destination and site, `generate_key` returns the same string for any two
baskets (`basket_id` is accepted but never enters the hashed payload). -/
theorem C4_generate_key_basket_independent (d : Address) (site : Option Nat)
    (b1 b2 : String) : generate_key d b1 site = generate_key d b2 site := rfl

/-- Claim C6 — `can_book` returns `True` exactly when the quote is valid,
the current time is strictly before its (non-null) expiry, and its stored
key equals the fingerprint recomputed from the given destination and site;
in particular a quote past its expiry, or one carrying the fingerprint of a
different destination country, never yields `True`. -/
theorem C6_can_book_characterization (q : Quote) (destination : Address)
    (basket_id : String) (site : Option Nat) (now : Int) :
    can_book q destination basket_id site now = .ok true ↔
      q.is_valid = true ∧ (∃ e, q.expires_at = some e ∧ now < e) ∧
        q.key = generate_key destination basket_id site := by
  unfold can_book
  cases hv : q.is_valid with
  | false => simp
  | true =>
    rw [if_neg (by simp)]
    cases he : q.expires_at with
    | none => simp
    | some e =>
      by_cases hlt : now < e
      · simp [hlt, beq_iff_eq]
      · simp [hlt]

/-- Claim C7 (code behaviour at the failing input) — a valid,
fingerprint-matching quote explicitly configured with a null `expires_at`
does not "never expire": `can_book` raises `TypeError` (`timezone.now() <
None`) instead of returning a boolean. -/
theorem C7_null_expiry_can_book_type_error :
    qNullExpiry.expires_at = none ∧ qNullExpiry.is_valid = true ∧
    qNullExpiry.key = generate_key destUS "b1" none ∧
    can_book qNullExpiry destUS "b1" none 0 = .error .typeError :=
  ⟨rfl, rfl, rfl, rfl⟩

/-- Claim C10 — `can_book` is read-only: with the ambient table threaded
through in the shape of the state-passing operations, the table comes back
unchanged and the returned value is the pure function of the quote's
fields, the clock and the recomputed fingerprint. -/
theorem C10_can_book_readonly (st : Store) (q : Quote) (destination : Address)
    (basket_id : String) (site : Option Nat) (now : Int) :
    (can_book_run st q destination basket_id site now).2 = st ∧
    (can_book_run st q destination basket_id site now).1 =
      can_book q destination basket_id site now :=
  ⟨rfl, rfl⟩

/-- Claim C1 (code behaviour at the failing input) — a per-service pricing
failure is not recovered into a sentinel invalid quote: with two services
of which `express` fails, the pass aborts. A "rate not found" failure is
caught (the Python 2 clause catches `InvalidShippingRate` only) but the
sentinel dict is built under the key `amount` and read back as
`shipping_rate["rate"]`, so the pass raises `KeyError('rate')` and the
table holds only the one successfully priced row (no `is_valid=false`
sentinel); a "country not served" failure is not caught at all and
propagates. -/
theorem C1_pricing_failure_aborts_pass :
    (create_shipping_quotes ["standard", "express"] priceRateFails destUS "b1"
        none 1000 emptyStore).1 = .error (.keyError "rate") ∧
    ((create_shipping_quotes ["standard", "express"] priceRateFails destUS "b1"
        none 1000 emptyStore).2.rows.map Quote.is_valid) = [true] ∧
    (create_shipping_quotes ["standard", "express"] priceCountryFails destUS
        "b1" none 1000 emptyStore).1 =
      .error (.uncaught .invalidShippingCountry) :=
  ⟨rfl, rfl, rfl⟩

/-- Claim C2 (code behaviour at the failing input) — the upsert is not
keyed by `(basket_id, fingerprint, service)`: at the `update_or_create`
call the `lookups` dict is passed as `defaults` and the price details act
as the match key, so reconciling two services that price identically
leaves a single row — the second service's upsert matches the first
service's row by price and overwrites its `service` — instead of one row
per distinct service. -/
theorem C2_upsert_keyed_on_price_details :
    ((create_shipping_quotes ["standard", "express"] priceFlat destUS "b1"
        none 1000 emptyStore).2.rows.length = 1) ∧
    ((create_shipping_quotes ["standard", "express"] priceFlat destUS "b1"
        none 1000 emptyStore).2.rows.map Quote.service = ["express"]) :=
  ⟨rfl, rfl⟩

/-- Claim C5 (code behaviour at the failing input) — a pass producing
exactly one quote does not mark it selected: `quotes[0]` is the `(object,
created)` tuple returned by `update_or_create`, so the assignment
`instance.is_selected = True` raises `AttributeError` and the single
persisted row keeps `is_selected` unset. -/
theorem C5_single_quote_auto_select_raises :
    (create_shipping_quotes ["standard"] priceOk destUS "b1" none 1000
        emptyStore).1 = .error .attributeError ∧
    ((create_shipping_quotes ["standard"] priceOk destUS "b1" none 1000
        emptyStore).2.rows.map Quote.is_selected = [none]) :=
  ⟨rfl, rfl⟩

/-- Helper: the selection update never changes a row's id, basket or key. -/
theorem selUpdate_fields (b k : String) (i : Nat) (r : Quote) :
    (selUpdate b k i r).id = r.id ∧ (selUpdate b k i r).basket_id = r.basket_id ∧
      (selUpdate b k i r).key = r.key := by
  unfold selUpdate
  split
  · split
    · exact ⟨rfl, rfl, rfl⟩
    · split
      · exact ⟨rfl, rfl, rfl⟩
      · exact ⟨rfl, rfl, rfl⟩
  · exact ⟨rfl, rfl, rfl⟩

/-- Helper: after the selection update, a row of the group that is selected
is the target. -/
theorem selUpdate_sel (b k : String) (i : Nat) (r : Quote)
    (hb : (selUpdate b k i r).basket_id = b) (hk : (selUpdate b k i r).key = k)
    (hs : (selUpdate b k i r).is_selected = some true) :
    (selUpdate b k i r).id = i := by
  by_cases hg : inQuoteGroup b k r = true
  · by_cases hi : r.id = i
    · rw [(selUpdate_fields b k i r).1, hi]
    · have hupd : selUpdate b k i r =
          (if r.is_selected == some true then
            { r with is_selected := some false } else r) := by
        simp [selUpdate, hg, hi]
      by_cases hsel : r.is_selected = some true
      · rw [hupd, if_pos (by simp [hsel])] at hs
        simp at hs
      · rw [hupd, if_neg (by simp [hsel])] at hs
        exact absurd hs hsel
  · have hupd : selUpdate b k i r = r := by simp [selUpdate, hg]
    rw [hupd] at hb hk
    exact absurd (by simp [inQuoteGroup, hb, hk]) hg

/-- Claim C8 (the selection operation modelled from the spec) — on a table
with primary-key integrity, `select_shipping_quote` fails with `NotFound`
exactly when `quote_id` does not belong to the `(basket_id, fingerprint)`
group; on success the returned quote is the target with
`is_selected = true` and is stored, every other previously selected quote
of the group is stored cleared, and the resulting table has no two
distinct selected quotes in the group. -/
theorem C8_select_semantics (st : Store) (basket_id key : String)
    (quote_id : Nat) (hids : (st.rows.map Quote.id).Nodup) :
    (select_shipping_quote st basket_id key quote_id = .error .notFound ↔
      ∀ q ∈ st.rows,
        ¬(q.basket_id = basket_id ∧ q.key = key ∧ q.id = quote_id)) ∧
    ∀ q' st', select_shipping_quote st basket_id key quote_id = .ok (q', st') →
      q'.is_selected = some true ∧ q'.basket_id = basket_id ∧ q'.key = key ∧
      q'.id = quote_id ∧ q' ∈ st'.rows ∧
      (∀ r ∈ st.rows, r.basket_id = basket_id → r.key = key →
        r.id ≠ quote_id → r.is_selected = some true →
        { r with is_selected := some false } ∈ st'.rows) ∧
      (∀ r1 ∈ st'.rows, ∀ r2 ∈ st'.rows, r1.basket_id = basket_id →
        r1.key = key → r1.is_selected = some true → r2.basket_id = basket_id →
        r2.key = key → r2.is_selected = some true → r1 = r2) := by
  rcases hf : st.rows.find?
      (fun q => inQuoteGroup basket_id key q && q.id == quote_id) with _ | q0
  · have hsel : select_shipping_quote st basket_id key quote_id =
        .error .notFound := by
      unfold select_shipping_quote
      rw [hf]
    refine ⟨⟨fun _ q hq hprop => ?_, fun _ => hsel⟩, fun q' st' h => ?_⟩
    · have hnone := List.find?_eq_none.mp hf q hq
      exact hnone (by simp [inQuoteGroup, hprop.1, hprop.2.1, hprop.2.2])
    · rw [hsel] at h
      exact absurd h (by simp)
  · have hp := List.find?_some hf
    have hmem : q0 ∈ st.rows := List.mem_of_find?_eq_some hf
    simp only [inQuoteGroup, Bool.and_eq_true, beq_iff_eq] at hp
    obtain ⟨⟨hb0, hk0⟩, hi0⟩ := hp
    have hsel : select_shipping_quote st basket_id key quote_id =
        .ok ({ q0 with is_selected := some true },
             ⟨st.rows.map (selUpdate basket_id key quote_id), st.nextId⟩) := by
      unfold select_shipping_quote
      rw [hf]
    constructor
    · rw [hsel]
      exact ⟨fun h => absurd h (by simp),
             fun hall => (hall q0 hmem ⟨hb0, hk0, hi0⟩).elim⟩
    · intro q' st' h
      rw [hsel] at h
      simp only [Except.ok.injEq, Prod.mk.injEq] at h
      obtain ⟨hq', hst'⟩ := h
      subst hq'
      subst hst'
      have hupd0 : selUpdate basket_id key quote_id q0 =
          { q0 with is_selected := some true } := by
        simp [selUpdate, inQuoteGroup, hb0, hk0, hi0]
      refine ⟨rfl, hb0, hk0, hi0, ?_, fun r hr hrb hrk hri hrs => ?_,
             fun r1 h1 r2 h2 hb1 hk1 hs1 hb2 hk2 hs2 => ?_⟩
      · exact hupd0 ▸ List.mem_map_of_mem _ hmem
      · have hupd : selUpdate basket_id key quote_id r =
            { r with is_selected := some false } := by
          simp [selUpdate, inQuoteGroup, hrb, hrk, hri, hrs]
        exact hupd ▸ List.mem_map_of_mem _ hr
      · obtain ⟨a1, ha1, hfa1⟩ := List.mem_map.mp h1
        obtain ⟨a2, ha2, hfa2⟩ := List.mem_map.mp h2
        subst hfa1
        subst hfa2
        have e1 := selUpdate_sel basket_id key quote_id a1 hb1 hk1 hs1
        have e2 := selUpdate_sel basket_id key quote_id a2 hb2 hk2 hs2
        rw [(selUpdate_fields basket_id key quote_id a1).1] at e1
        rw [(selUpdate_fields basket_id key quote_id a2).1] at e2
        have : a1 = a2 :=
          List.inj_on_of_nodup_map hids ha1 ha2 (by rw [e1, e2])
        rw [this]

/-- Witness for C8: on the concrete two-row table with `selA` selected,
selecting `selB` (id 1) succeeds, returns `selB` selected, and stores
`selA` cleared. -/
theorem C8_select_semantics_witness :
    ((selStore.rows.map Quote.id).Nodup) ∧
    ({ selB with is_selected := some true } : Quote).is_selected = some true ∧
    ({ selA with is_selected := some false } : Quote) ∈
      (stepSel selStore "b" "k" 1).rows :=
  ⟨by decide,
   ((C8_select_semantics selStore "b" "k" 1 (by decide)).2
      { selB with is_selected := some true } (stepSel selStore "b" "k" 1)
      rfl).1,
   (((C8_select_semantics selStore "b" "k" 1 (by decide)).2
      { selB with is_selected := some true } (stepSel selStore "b" "k" 1)
      rfl).2.2.2.2.2.1 selA (by decide) rfl rfl (by decide) rfl)⟩

/-- Helper: a table passing the `unique_together` constraint has at most one
selected row per `(basket_id, key)`. -/
theorem uniqueOK_sel (rows : List Quote) (h : uniqueTogetherOK rows = true) :
    ∀ q1 ∈ rows, ∀ q2 ∈ rows, q1.basket_id = q2.basket_id → q1.key = q2.key →
      q1.is_selected = some true → q2.is_selected = some true → q1 = q2 := by
  induction rows with
  | nil => intro q1 h1; exact absurd h1 (List.not_mem_nil q1)
  | cons q rest ih =>
    simp only [uniqueTogetherOK, Bool.and_eq_true, List.all_eq_true] at h
    obtain ⟨hall, hrest⟩ := h
    intro q1 h1 q2 h2 hb hk hs1 hs2
    rcases List.mem_cons.mp h1 with rfl | h1'
    · rcases List.mem_cons.mp h2 with rfl | h2'
      · rfl
      · have hc := hall q2 h2'
        simp [noConflict, hs1, hs2, hb, hk] at hc
    · rcases List.mem_cons.mp h2 with rfl | h2'
      · have hc := hall q1 h1'
        simp [noConflict, hs1, hs2, hb, hk] at hc
      · exact ih hrest q1 h1' q2 h2' hb hk hs1 hs2

/-- Helper: `selUnique` for a store whose table passes the constraint. -/
theorem selUnique_of_uniqueOK (st : Store)
    (h : uniqueTogetherOK st.rows = true) : selUnique st :=
  fun q1 h1 q2 h2 => uniqueOK_sel st.rows h q1 h1 q2 h2

/-- Helper: a successful `update_or_create` leaves a table passing the
constraint (both the insert and the update are guarded by it). -/
theorem update_or_create_uniqueOK (now : Int) (st : Store) (L : Lookups)
    (D : Details) (q : Quote) (c : Bool) (st' : Store)
    (h : update_or_create now st L D = .ok (q, c, st')) :
    uniqueTogetherOK st'.rows = true := by
  simp only [update_or_create] at h
  split at h
  · split at h
    · simp only [Except.ok.injEq, Prod.mk.injEq] at h
      obtain ⟨-, -, h3⟩ := h
      subst h3
      assumption
    · exact absurd h (by simp)
  · split at h
    · simp only [Except.ok.injEq, Prod.mk.injEq] at h
      obtain ⟨-, -, h3⟩ := h
      subst h3
      assumption
    · exact absurd h (by simp)
  · exact absurd h (by simp)

/-- Helper: a successful `update_or_create` preserves primary-key
integrity — the insert allocates the fresh counter value, the update keeps
every id in place. -/
theorem update_or_create_ids (now : Int) (st : Store) (L : Lookups)
    (D : Details) (q : Quote) (c : Bool) (st' : Store)
    (h : update_or_create now st L D = .ok (q, c, st')) (hw : idsWf st) :
    idsWf st' := by
  obtain ⟨hn, hb⟩ := hw
  simp only [update_or_create] at h
  split at h
  · split at h
    · simp only [Except.ok.injEq, Prod.mk.injEq] at h
      obtain ⟨-, -, h3⟩ := h
      subst h3
      constructor
      · simp only [List.map_append]
        rw [List.nodup_append]
        refine ⟨hn, by simp, ?_⟩
        intro x hx hx'
        obtain ⟨r, hr, hid⟩ := List.mem_map.mp hx
        simp only [List.map_cons, List.map_nil, List.mem_singleton] at hx'
        subst hx'
        exact absurd hid (Nat.ne_of_lt (hb r hr))
      · intro r hr
        rcases List.mem_append.mp hr with hr' | hr'
        · exact Nat.lt_succ_of_lt (hb r hr')
        · simp only [List.mem_singleton] at hr'
          subst hr'
          exact Nat.lt_succ_self _
    · exact absurd h (by simp)
  · rename_i q0 heq
    split at h
    · simp only [Except.ok.injEq, Prod.mk.injEq] at h
      obtain ⟨-, -, h3⟩ := h
      subst h3
      constructor
      · rw [List.map_map]
        have hres := List.map_congr_left (l := st.rows) (g := Quote.id)
          (f := Quote.id ∘ fun r => if (r.id == q0.id) = true then
            { q0 with basket_id := L.basket_id, service := L.service,
                      key := L.key, updated_at := now } else r)
          (by
            intro a ha
            by_cases hid : a.id = q0.id
            · simp [Function.comp, hid]
            · simp [Function.comp, hid])
        rw [hres]
        exact hn
      · intro r hr
        obtain ⟨a, ha, hfa⟩ := List.mem_map.mp hr
        have hra : r.id = a.id := by
          rw [← hfa]
          by_cases hid : a.id = q0.id
          · simp [hid]
          · simp [hid]
        rw [hra]
        exact hb a ha
    · exact absurd h (by simp)
  · exact absurd h (by simp)

/-- Helper: when the pricer succeeds, `serviceUpsert` is exactly the
swapped-argument `update_or_create` on the priced details. -/
theorem serviceUpsert_ok_eq (price : String → Except PricerErr Rate)
    (now : Int) (b k name : String) (st : Store) (r : Rate)
    (hp : price name = .ok r) :
    serviceUpsert price now b k name st =
      update_or_create now st ⟨b, name, k⟩
        ⟨r.rate, r.carrier, r.description, true⟩ := by
  unfold serviceUpsert
  rw [hp]
  rfl

/-- Helper: a "rate not found" failure makes `serviceUpsert` raise
`KeyError('rate')` — the sentinel dict carries no `rate` key. -/
theorem serviceUpsert_rate_fail (price : String → Except PricerErr Rate)
    (now : Int) (b k name : String) (st : Store)
    (hp : price name = .error .invalidShippingRate) :
    serviceUpsert price now b k name st = .error (.keyError "rate") := by
  unfold serviceUpsert
  rw [hp]
  rfl

/-- Helper: a "country not served" failure escapes `serviceUpsert`
uncaught. -/
theorem serviceUpsert_country_fail (price : String → Except PricerErr Rate)
    (now : Int) (b k name : String) (st : Store)
    (hp : price name = .error .invalidShippingCountry) :
    serviceUpsert price now b k name st =
      .error (.uncaught .invalidShippingCountry) := by
  unfold serviceUpsert
  rw [hp]
  rfl

/-- Helper: the reconciliation loop preserves store well-formedness. -/
theorem quotesLoop_wf (price : String → Except PricerErr Rate) (now : Int)
    (b k : String) : ∀ (names : List String) (st : Store)
    (acc : List (Quote × Bool)), storeWf st →
    storeWf (quotesLoop price now b k names st acc).2 := by
  intro names
  induction names with
  | nil => intro st acc h; simpa [quotesLoop] using h
  | cons name rest ih =>
    intro st acc h
    rcases hs : serviceUpsert price now b k name st with e | ⟨q, c, st'⟩
    · simpa [quotesLoop, hs] using h
    · have hwf' : storeWf st' := by
        rcases hp : price name with e | r
        · cases e
          · rw [serviceUpsert_rate_fail price now b k name st hp] at hs
            exact absurd hs (by simp)
          · rw [serviceUpsert_country_fail price now b k name st hp] at hs
            exact absurd hs (by simp)
        · rw [serviceUpsert_ok_eq price now b k name st r hp] at hs
          exact ⟨update_or_create_ids now st _ _ q c st' hs h.1,
                 selUnique_of_uniqueOK st'
                   (update_or_create_uniqueOK now st _ _ q c st' hs)⟩
      simpa [quotesLoop, hs] using ih st' (acc ++ [(q, c)]) hwf'

/-- Helper: the store produced by a reconciliation pass is the store after
the loop (the auto-selection stage either raises before saving or does
nothing). -/
theorem create_shipping_quotes_snd (names : List String)
    (price : String → Except PricerErr Rate) (d : Address) (b : String)
    (site : Option Nat) (now : Int) (st : Store) :
    (create_shipping_quotes names price d b site now st).2 =
      (quotesLoop price now b (generate_key d b site) names st []).2 := by
  simp only [create_shipping_quotes]
  rcases hq : quotesLoop price now b (generate_key d b site) names st []
    with ⟨res, st'⟩
  cases res with
  | error e => rfl
  | ok qs =>
    by_cases h1 : (qs.length == 1) = true
    · simp [h1]
    · simp [h1]

/-- Helper: a reconciliation pass preserves store well-formedness. -/
theorem create_shipping_quotes_wf (names : List String)
    (price : String → Except PricerErr Rate) (d : Address) (b : String)
    (site : Option Nat) (now : Int) (st : Store) (h : storeWf st) :
    storeWf (create_shipping_quotes names price d b site now st).2 := by
  rw [create_shipping_quotes_snd]
  exact quotesLoop_wf price now b (generate_key d b site) names st [] h

/-- Helper: `inQuoteGroup` decoded. -/
theorem inQuoteGroup_iff (b k : String) (q : Quote) :
    inQuoteGroup b k q = true ↔ q.basket_id = b ∧ q.key = k := by
  simp [inQuoteGroup]

/-- Helper: the ways a row can be selected after the selection update. -/
theorem selUpdate_sel_cases (b k : String) (i : Nat) (a : Quote)
    (h : (selUpdate b k i a).is_selected = some true) :
    (inQuoteGroup b k a = true ∧ a.id = i ∧
      selUpdate b k i a = { a with is_selected := some true }) ∨
    (inQuoteGroup b k a = false ∧ selUpdate b k i a = a ∧
      a.is_selected = some true) := by
  by_cases hg : inQuoteGroup b k a = true
  · by_cases hi : a.id = i
    · exact Or.inl ⟨hg, hi, by simp [selUpdate, hg, hi]⟩
    · exfalso
      by_cases hsel : a.is_selected = some true
      · have heq : selUpdate b k i a = { a with is_selected := some false } :=
          by simp [selUpdate, hg, hi, hsel]
        rw [heq] at h
        simp at h
      · have heq : selUpdate b k i a = a := by simp [selUpdate, hg, hi, hsel]
        rw [heq] at h
        exact hsel h
  · have hg' : inQuoteGroup b k a = false := by simpa using hg
    have heq : selUpdate b k i a = a := by simp [selUpdate, hg']
    exact Or.inr ⟨hg', heq, by rwa [heq] at h⟩

/-- Helper: a successful selection preserves store well-formedness. -/
theorem select_wf (st st' : Store) (b k : String) (i : Nat) (q : Quote)
    (h : storeWf st) (hs : select_shipping_quote st b k i = .ok (q, st')) :
    storeWf st' := by
  unfold select_shipping_quote at hs
  split at hs
  · exact absurd hs (by simp)
  · simp only [Except.ok.injEq, Prod.mk.injEq] at hs
    obtain ⟨-, hst⟩ := hs
    subst hst
    have hmapid : (st.rows.map (selUpdate b k i)).map Quote.id =
        st.rows.map Quote.id := by
      rw [List.map_map]
      exact List.map_congr_left (fun a _ => (selUpdate_fields b k i a).1)
    refine ⟨⟨?_, ?_⟩, ?_⟩
    · show ((st.rows.map (selUpdate b k i)).map Quote.id).Nodup
      rw [hmapid]
      exact h.1.1
    · intro r hr
      obtain ⟨a, ha, hfa⟩ := List.mem_map.mp hr
      have : r.id = a.id := by rw [← hfa]; exact (selUpdate_fields b k i a).1
      rw [this]
      exact h.1.2 a ha
    · intro r1 h1 r2 h2 hb12 hk12 hs1 hs2
      obtain ⟨a1, ha1, hfa1⟩ := List.mem_map.mp h1
      obtain ⟨a2, ha2, hfa2⟩ := List.mem_map.mp h2
      subst hfa1
      subst hfa2
      rcases selUpdate_sel_cases b k i a1 hs1 with ⟨hg1, hi1, he1⟩ |
        ⟨hg1, he1, hsel1⟩
      · rcases selUpdate_sel_cases b k i a2 hs2 with ⟨hg2, hi2, he2⟩ |
          ⟨hg2, he2, hsel2⟩
        · have : a1 = a2 := List.inj_on_of_nodup_map h.1.1 ha1 ha2
            (by rw [hi1, hi2])
          rw [this]
        · exfalso
          obtain ⟨hab1, hak1⟩ := (inQuoteGroup_iff b k a1).mp hg1
          rw [he1, he2] at hb12 hk12
          have hb2' : a2.basket_id = b := by
            rw [← hb12]
            exact hab1
          have hk2' : a2.key = k := by
            rw [← hk12]
            exact hak1
          have hgg := (inQuoteGroup_iff b k a2).mpr ⟨hb2', hk2'⟩
          rw [hg2] at hgg
          exact Bool.false_ne_true hgg
      · rcases selUpdate_sel_cases b k i a2 hs2 with ⟨hg2, hi2, he2⟩ |
          ⟨hg2, he2, hsel2⟩
        · exfalso
          obtain ⟨hab2, hak2⟩ := (inQuoteGroup_iff b k a2).mp hg2
          rw [he1, he2] at hb12 hk12
          have hb1' : a1.basket_id = b := by
            rw [hb12]
            exact hab2
          have hk1' : a1.key = k := by
            rw [hk12]
            exact hak2
          have hgg := (inQuoteGroup_iff b k a1).mpr ⟨hb1', hk1'⟩
          rw [hg1] at hgg
          exact Bool.false_ne_true hgg
        · rw [he1] at hb12 hk12 ⊢
          rw [he2] at hb12 hk12 ⊢
          rw [h.2 a1 ha1 a2 ha2 hb12 hk12 hsel1 hsel2]

/-- Helper: every reachable store is well-formed. -/
theorem storeWf_of_reachable (st : Store) (h : Reachable st) : storeWf st := by
  induction h with
  | init =>
    exact ⟨⟨List.nodup_nil, fun q hq => absurd hq (List.not_mem_nil q)⟩,
           fun q1 h1 => absurd h1 (List.not_mem_nil q1)⟩
  | reconcile names price d b site now st hst ih =>
    exact create_shipping_quotes_wf names price d b site now st ih
  | select b k i q st st' hst hsel ih => exact select_wf st st' b k i q ih hsel

/-- Claim C9 counterexample — a store state reachable through the core's
operations (two reconciliation passes for different destination countries,
then one selection in each fingerprint group) holding two distinct quotes
of the same basket that are both `is_selected = true`: per-basket
uniqueness of selection does not hold, because the structural constraint
keys on `(basket_id, is_selected, key)` and so only restricts each
fingerprint group. -/
theorem C9_per_basket_two_selected :
    Reachable stD ∧ qSel1 ∈ stD.rows ∧ qSel2 ∈ stD.rows ∧
    qSel1.basket_id = qSel2.basket_id ∧ qSel1.is_selected = some true ∧
    qSel2.is_selected = some true ∧ qSel1 ≠ qSel2 := by
  have h1 : Reachable stA :=
    Reachable.reconcile ["standard", "express"] priceOk destUS "b" none 1000
      emptyStore Reachable.init
  have h2 : Reachable stB :=
    Reachable.reconcile ["standard", "express"] priceCA destCA "b" none 2000
      stA h1
  have h3 : Reachable stC := Reachable.select "b" kUS 0 qSel1 stB stC h2 rfl
  have h4 : Reachable stD := Reachable.select "b" kCA 2 qSel2 stC stD h3 rfl
  exact ⟨h4, by decide, by decide, by decide, by decide, by decide, by decide⟩

/-- Claim C9 as amended — in every store state reachable through the
core's operations, at most one quote per `(basket_id, fingerprint)` group
has `is_selected = true` (the uniqueness the `(basket_id, is_selected,
key)` constraint enforces is per fingerprint group, not per basket). -/
theorem C9_group_selection_unique (st : Store) (h : Reachable st) :
    selUnique st :=
  (storeWf_of_reachable st h).2

/-- Witness for the amended C9 at the initial store. -/
theorem C9_group_selection_unique_witness : selUnique emptyStore :=
  C9_group_selection_unique emptyStore Reachable.init

end Longclaw
